import Mathlib

/-!
Verification development for the BackendBuddy core: a shallow embedding of
the admission-control queue (`backend/queue_manager.py`), the reverse proxy
gate (`backend/main.py`), the process supervisor (`backend/server_manager.py`),
the tunnel supervisor (`backend/network_manager.py`) and the traffic recorder
(`backend/traffic_monitor.py`), together with theorems about the behaviour of
these components.  Timestamps are modelled as natural numbers (an order
isomorphic view of `datetime.utcnow()` values); UUID minting is modelled by an
explicit `freshId` argument supplied by the environment.
-/

namespace BackendBuddy

/-! ## Queue manager (`backend/queue_manager.py`) -/

/-- Embedding of the `QueueUser` dataclass. -/
structure QueueUser where
  session_id : String
  joined_at : Nat
  last_heartbeat : Nat
  position : Nat
  is_active : Bool := false
  is_localhost : Bool := false
deriving DecidableEq

/-- Embedding of the mutable fields of `QueueManager`. -/
structure QueueManager where
  active_users : List QueueUser := []
  waiting_users : List QueueUser := []
  heartbeat_timeout : Nat := 30
  max_concurrent : Nat := 1
  prioritize_localhost : Bool := true
deriving DecidableEq

/-- The freshly constructed `QueueManager()` (constructor defaults). -/
def initQM : QueueManager := {}

/-- Embedding of `QueueManager.configure`: `max_concurrent = max(1, max_concurrent)`. -/
def configure (qm : QueueManager) (max_concurrent : Nat) (prioritize_localhost : Bool) :
    QueueManager :=
  { qm with max_concurrent := max 1 max_concurrent,
            prioritize_localhost := prioritize_localhost }

/-- Embedding of `QueueManager._is_user_active`. -/
def isUserActive (qm : QueueManager) (sid : String) : Bool :=
  qm.active_users.any (fun u => u.session_id == sid)

/-- First waiting entry with the given session id (the `for user in
self.waiting_users` search loops). -/
def findWaiting (l : List QueueUser) (sid : String) : Option QueueUser :=
  l.find? (fun u => u.session_id == sid)

/-- Embedding of `QueueManager._update_positions`: `user.position = i + 1`
for the i-th waiting user.  `setPositionsFrom n` renumbers starting at `n`. -/
def setPositionsFrom (n : Nat) : List QueueUser → List QueueUser
  | [] => []
  | u :: rest => { u with position := n } :: setPositionsFrom (n + 1) rest

/-- Renumbering of the waiting list to positions `1..N`. -/
def updatePositions (l : List QueueUser) : List QueueUser :=
  setPositionsFrom 1 l

/-- Embedding of the `while` loop of `QueueManager._promote_waiting_users`:
pop the waiting head while there is room, mark it active at position 0. -/
def promoteLoop (cap : Nat) (active : List QueueUser) :
    List QueueUser → List QueueUser × List QueueUser
  | [] => (active, [])
  | u :: rest =>
      if active.length < cap then
        promoteLoop cap (active ++ [{ u with is_active := true, position := 0 }]) rest
      else (active, u :: rest)

/-- Embedding of `QueueManager._promote_waiting_users` (loop followed by
`_update_positions`). -/
def promoteWaitingUsers (qm : QueueManager) : QueueManager :=
  let p := promoteLoop qm.max_concurrent qm.active_users qm.waiting_users
  { qm with active_users := p.1, waiting_users := updatePositions p.2 }

/-- Queue decision status strings `"active"` / `"waiting"`. -/
inductive QStatus where
  | active
  | waiting
deriving DecidableEq

/-- Shape of the dict returned by `QueueManager.join_queue`. -/
structure JoinResult where
  session_id : String
  status : QStatus
  position : Nat
  queue_length : Option Nat := none
  message : String := ""
deriving DecidableEq

/-- Resolution of the Python falsy check `if not session_id`: a missing or
empty session id is replaced by a fresh UUID (`freshId`). -/
def resolveSid (session_id : Option String) (freshId : String) : String :=
  match session_id with
  | none => freshId
  | some s => if s = "" then freshId else s

/-- Embedding of `QueueManager.join_queue`. -/
def joinQueue (qm : QueueManager) (session_id : Option String) (is_localhost : Bool)
    (freshId : String) (now : Nat) : JoinResult × QueueManager :=
  let sid := resolveSid session_id freshId
  if isUserActive qm sid then
    ({ session_id := sid, status := .active, position := 0, message := "Already active" }, qm)
  else
    match findWaiting qm.waiting_users sid with
    | some u =>
        ({ session_id := sid, status := .waiting, position := u.position,
           queue_length := some qm.waiting_users.length, message := "Already in queue" }, qm)
    | none =>
        if is_localhost && qm.prioritize_localhost then
          let newUser : QueueUser :=
            { session_id := sid, joined_at := now, last_heartbeat := now,
              position := 0, is_active := true, is_localhost := true }
          ({ session_id := sid, status := .active, position := 0,
             message := "Localhost priority access granted" },
           { qm with active_users := qm.active_users ++ [newUser] })
        else if qm.active_users.length < qm.max_concurrent then
          let newUser : QueueUser :=
            { session_id := sid, joined_at := now, last_heartbeat := now,
              position := 0, is_active := true, is_localhost := is_localhost }
          ({ session_id := sid, status := .active, position := 0,
             message := "Access granted" },
           { qm with active_users := qm.active_users ++ [newUser] })
        else
          let position := qm.waiting_users.length + 1
          let user : QueueUser :=
            { session_id := sid, joined_at := now, last_heartbeat := now,
              position := position, is_active := false, is_localhost := is_localhost }
          ({ session_id := sid, status := .waiting, position := position,
             queue_length := some (qm.waiting_users.length + 1),
             message := "Added to queue at position " ++ toString position },
           { qm with waiting_users := updatePositions (qm.waiting_users ++ [user]) })

/-- Removal of the first entry with the given session id (the
`enumerate` + `pop(i)` pattern of `leave_queue`). -/
def removeFirstSession : List QueueUser → String → List QueueUser
  | [], _ => []
  | u :: rest, sid =>
      if u.session_id = sid then rest else u :: removeFirstSession rest sid

/-- Shape of the dict returned by `leave_queue`. -/
structure LeaveResult where
  success : Bool
  message : String := ""
deriving DecidableEq

/-- Embedding of `QueueManager.leave_queue`. -/
def leaveQueue (qm : QueueManager) (sid : String) : LeaveResult × QueueManager :=
  if isUserActive qm sid then
    ({ success := true, message := "Left active session" },
     promoteWaitingUsers { qm with active_users := removeFirstSession qm.active_users sid })
  else
    match findWaiting qm.waiting_users sid with
    | some _ =>
        ({ success := true, message := "Removed from queue" },
         { qm with waiting_users := updatePositions (removeFirstSession qm.waiting_users sid) })
    | none => ({ success := false, message := "Session not found" }, qm)

/-- Refreshing of `last_heartbeat` on the first matching entry (the search
loops of `QueueManager.heartbeat`). -/
def refreshFirst : List QueueUser → String → Nat → List QueueUser
  | [], _, _ => []
  | u :: rest, sid, now =>
      if u.session_id = sid then { u with last_heartbeat := now } :: rest
      else u :: refreshFirst rest sid now

/-- Shape of the dict returned by `QueueManager.heartbeat`. -/
structure HeartbeatResult where
  success : Bool
  status : Option QStatus := none
  position : Option Nat := none
  queue_length : Option Nat := none
deriving DecidableEq

/-- Embedding of `QueueManager.heartbeat`. -/
def heartbeat (qm : QueueManager) (sid : String) (now : Nat) :
    HeartbeatResult × QueueManager :=
  if isUserActive qm sid then
    ({ success := true, status := some .active, position := some 0 },
     { qm with active_users := refreshFirst qm.active_users sid now })
  else
    match findWaiting qm.waiting_users sid with
    | some u =>
        ({ success := true, status := some .waiting, position := some u.position,
           queue_length := some qm.waiting_users.length },
         { qm with waiting_users := refreshFirst qm.waiting_users sid now })
    | none => ({ success := false }, qm)

/-- Embedding of `QueueManager.check_timeouts` (the reaper body): evict
entries whose `last_heartbeat` is older than `now - heartbeat_timeout`; when
anything was evicted, renumber positions and promote. -/
def checkTimeouts (qm : QueueManager) (now : Nat) : QueueManager :=
  let threshold := now - qm.heartbeat_timeout
  let active' := qm.active_users.filter (fun u => !(u.last_heartbeat < threshold))
  let waiting' := qm.waiting_users.filter (fun u => !(u.last_heartbeat < threshold))
  if active'.length < qm.active_users.length ∨ waiting'.length < qm.waiting_users.length then
    promoteWaitingUsers
      { qm with active_users := active', waiting_users := updatePositions waiting' }
  else
    { qm with active_users := active', waiting_users := waiting' }

/-- Shape of the dict returned by `QueueManager.get_user_status`. -/
structure UserStatus where
  session_id : String
  status : QStatus
  position : Nat
  queue_length : Option Nat := none
  estimated_wait : Option Nat := none
deriving DecidableEq

/-- Embedding of `QueueManager.get_user_status`. -/
def getUserStatus (qm : QueueManager) (sid : String) : Option UserStatus :=
  match qm.active_users.find? (fun u => u.session_id == sid) with
  | some _ => some { session_id := sid, status := .active, position := 0 }
  | none =>
      match findWaiting qm.waiting_users sid with
      | some u =>
          some { session_id := sid, status := .waiting, position := u.position,
                 queue_length := some qm.waiting_users.length,
                 estimated_wait := some (u.position * 30) }
      | none => none

/-- Count of currently-active entries carrying the localhost flag. -/
def countLocalhostActive (qm : QueueManager) : Nat :=
  qm.active_users.countP (fun u => u.is_localhost)

/-- Projection forgetting the `last_heartbeat` field, used to state frame
conditions ("only the heartbeat timestamp may change"). -/
def eraseHb (u : QueueUser) : QueueUser := { u with last_heartbeat := 0 }

/-! ## Configuration records and Python truthiness -/

/-- Truthiness of an optional boolean column (`if config.queue_enabled:`
treats `None` and `False` alike). -/
def pyTruthy : Option Bool → Bool
  | some b => b
  | none => false

/-- Truthiness of an optional string column (`if config.directory:` treats
`None` and `""` alike). -/
def pyTruthyStr : Option String → Bool
  | some s => !(s == "")
  | none => false

/-- The Python idiom `config.max_concurrent_users or 1` (both `None` and `0`
fall back to 1). -/
def pyOrOne : Option Nat → Nat
  | some k => if k = 0 then 1 else k
  | none => 1

/-- Embedding of the `ProjectConfig` database record fields read by the
core (`backend/database.py`); every column the core consults is nullable at
the ORM level, hence the `Option` types. -/
structure ProjectConfigRec where
  directory : Option String := none
  command : Option String := none
  frontend_directory : Option String := none
  frontend_command : Option String := none
  port : Option Nat := none
  lan_enabled : Option Bool := none
  ngrok_enabled : Option Bool := none
  cloudflare_enabled : Option Bool := none
  queue_enabled : Option Bool := none
  max_concurrent_users : Option Nat := none
  prioritize_localhost : Option Bool := none
deriving DecidableEq

/-- Embedding of the `POST /api/queue/join` handler (`join_queue` in
`backend/main.py`): with no config record, a disabled queue, or a local
caller, the queue is bypassed and an active decision is fabricated without
touching the queue manager; otherwise `queue_manager.join_queue` is invoked
with the request's session id and the default `is_localhost=False`. -/
def apiQueueJoin (config : Option ProjectConfigRec) (is_local : Bool)
    (session_id : Option String) (freshId : String) (qm : QueueManager)
    (now : Nat) : JoinResult × QueueManager :=
  let bypass :=
    match config with
    | none => true
    | some c => !(pyTruthy c.queue_enabled) || is_local
  if bypass then
    ({ session_id := resolveSid session_id freshId, status := .active,
       position := 0, message := "Access granted (queue bypassed)" }, qm)
  else joinQueue qm session_id false freshId now

/-! ## Reverse proxy (`proxy_to_target` in `backend/main.py`) -/

/-- Loopback host classification used by the proxy. -/
def isLocalhostIp (ip : String) : Bool :=
  ip == "127.0.0.1" || ip == "localhost" || ip == "::1"

/-- Resolution of the real client: when `X-Forwarded-For` is a non-empty
string its first comma-separated element (stripped) wins, else the socket
peer address. -/
def resolveIsLocalhost (clientIp xff : String) : Bool :=
  if xff ≠ "" then isLocalhostIp ((xff.splitOn ",").headD "" |>.trim)
  else isLocalhostIp clientIp

/-- Reading or minting of the `bb_session_id` cookie; the boolean records
whether a new session was minted (`if not session_id`). -/
def resolveCookieSession (cookie : Option String) (freshId : String) :
    String × Bool :=
  match cookie with
  | none => (freshId, true)
  | some s => if s = "" then (freshId, true) else (s, false)

/-- Behaviour of the outbound `requests.request` call to the target, as
distinguished by the proxy's `except` clauses; an external-collaborator
oracle supplied per request. -/
inductive TargetBehavior where
  | respond (status : Nat) (contentType : Option String) (body : String)
  | connError
  | timeout
  | raiseOther (msg : String)
deriving DecidableEq

/-- The HTTP responses the proxy handler can produce. -/
inductive ProxyResponse where
  | noProject503
  | waitingRoom200 (html : String) (cookie_session : String)
  | waitingRoomMissing503
  | proxied (status : Nat) (body : String) (new_cookie : Option String)
  | targetNotResponding502 (target_url : String)
  | gatewayTimeout504
  | badGateway502 (details : String)
deriving DecidableEq

/-- Result of one proxy invocation: the response, whether an outbound
connection attempt to the target was issued, and the queue state left
behind. -/
structure ProxyResult where
  response : ProxyResponse
  contacted_target : Bool
  qm : QueueManager
deriving DecidableEq

/-- Path rewrite before forwarding: the `/preview` path family has the
first 8 characters stripped (empty result becomes `/`); asset paths pass
through verbatim. -/
def computePath (reqPath : String) : String :=
  if reqPath.startsWith "/preview" then
    let p := reqPath.drop 8
    if p = "" then "/" else p
  else reqPath

/-- The script injected into the waiting-room HTML before `</head>`. -/
def injectionScript (session_id : String) : String :=
  "<script>window.BB_SESSION_ID = \x22" ++ session_id ++ "\x22;</script>"

/-- Forwarding step of `proxy_to_target`.  When the configured port is
absent the code still builds `http://127.0.0.1:None...`; the request layer
rejects that URL (`InvalidURL`) before any connection is attempted, so the
generic `except` clause answers 502 without contacting the target. -/
def forwardToTarget (port : Option Nat) (reqPath query : String)
    (target : TargetBehavior) (session_id : String) (new_session : Bool)
    (qm : QueueManager) : ProxyResult :=
  match port with
  | none =>
      { response := .badGateway502 "InvalidURL", contacted_target := false,
        qm := qm }
  | some p =>
      let target_url := "http://127.0.0.1:" ++ toString p ++ computePath reqPath ++
        (if query ≠ "" then "?" ++ query else "")
      match target with
      | .respond status _ body =>
          { response := .proxied status body
              (if new_session then some session_id else none),
            contacted_target := true, qm := qm }
      | .connError =>
          { response := .targetNotResponding502 target_url,
            contacted_target := true, qm := qm }
      | .timeout =>
          { response := .gatewayTimeout504, contacted_target := true, qm := qm }
      | .raiseOther msg =>
          { response := .badGateway502 msg, contacted_target := true, qm := qm }

/-- Embedding of `proxy_to_target`: read the configuration (503 when there
is no record), push the record's queue settings into the queue manager,
resolve the real client and the session cookie, gate through the queue when
enabled (serving the waiting room on a non-active decision), and otherwise
forward to the target. -/
def proxyToTarget (config : Option ProjectConfigRec) (clientIp xff : String)
    (cookie : Option String) (freshId : String) (reqPath query : String)
    (waitingRoomFile : Option String) (target : TargetBehavior)
    (qm0 : QueueManager) (now : Nat) : ProxyResult :=
  match config with
  | none => { response := .noProject503, contacted_target := false, qm := qm0 }
  | some c =>
      let qm := configure qm0 (pyOrOne c.max_concurrent_users)
        (c.prioritize_localhost.getD true)
      let is_localhost := resolveIsLocalhost clientIp xff
      let sc := resolveCookieSession cookie freshId
      if pyTruthy c.queue_enabled then
        let jr := joinQueue qm (some sc.1) is_localhost freshId now
        if jr.1.status ≠ QStatus.active then
          match waitingRoomFile with
          | some html =>
              { response := .waitingRoom200
                  (html.replace "</head>" (injectionScript sc.1 ++ "</head>"))
                  sc.1,
                contacted_target := false, qm := jr.2 }
          | none =>
              { response := .waitingRoomMissing503, contacted_target := false,
                qm := jr.2 }
        else
          forwardToTarget c.port reqPath query target sc.1 sc.2
            (heartbeat jr.2 sc.1 now).2
      else
        forwardToTarget c.port reqPath query target sc.1 sc.2 qm

/-- Whether a proxy response carries HTTP status 503. -/
def is503 : ProxyResponse → Bool
  | .noProject503 => true
  | .waitingRoomMissing503 => true
  | _ => false

/-! ## Process supervisor (`backend/server_manager.py`) -/

/-- Host-filesystem oracle for the supervisor: `os.path.exists`,
`os.path.isdir` and `os.path.normpath` of the machine the server runs on. -/
structure FSEnv where
  pathExists : String → Bool
  isDirectory : String → Bool
  normpath : String → String

/-- Embedding of the mutable fields of `ServerManager`; a process handle is
identified by the `(cwd, command)` pair it was spawned with. -/
structure SMState where
  process : Option (String × String) := none
  frontend_process : Option (String × String) := none
  is_running : Bool := false
deriving DecidableEq

/-- Shape of the dict returned by `ServerManager.start` / `stop` /
`restart`, extended with the observation of which processes were spawned by
the call. -/
structure StartResult where
  success : Bool
  message : String := ""
  backendSpawned : Option (String × String) := none
  frontendSpawned : Option (String × String) := none
deriving DecidableEq

/-- The dangerous-pattern list of `ServerManager.start`. -/
def dangerous_patterns : List String :=
  ["$(", "\x60", "|", ">", "<", ";", "\n", "\r"]

/-- Occurrence of `pat` as a contiguous block of `l`. -/
def infixCheck (pat : List Char) : List Char → Bool
  | [] => pat.isEmpty
  | c :: rest => pat.isPrefixOf (c :: rest) || infixCheck pat rest

/-- Substring containment (`pattern in command`). -/
def containsPattern (command pat : String) : Bool :=
  infixCheck pat.toList command.toList

/-- Embedding of `ServerManager.start`.  `subprocess.Popen` with
`shell=True` spawns the shell itself and therefore does not raise for a
missing program, so the spawn-failure `except` branches are not reachable in
this model; the dangerous-pattern filter is applied to `command` only,
exactly as in the source. -/
def smStart (env : FSEnv) (st : SMState) (directory command : String)
    (frontend_directory frontend_command : Option String) :
    StartResult × SMState :=
  if st.is_running then
    ({ success := false, message := "Server is already running" }, st)
  else if !(env.pathExists directory) then
    ({ success := false, message := "Directory does not exist: " ++ directory }, st)
  else if !(env.isDirectory directory) then
    ({ success := false, message := "Path is not a directory: " ++ directory }, st)
  else if dangerous_patterns.any (fun pat => containsPattern command pat) then
    ({ success := false, message := "Invalid command: contains forbidden character" }, st)
  else
    let st1 : SMState :=
      { st with process := some (directory, command), is_running := true }
    if pyTruthyStr frontend_directory && pyTruthyStr frontend_command then
      let fd := frontend_directory.getD ""
      let fc := frontend_command.getD ""
      if env.pathExists fd then
        ({ success := true, message := "Server(s) started successfully",
           backendSpawned := some (directory, command),
           frontendSpawned := some (fd, fc) },
         { st1 with frontend_process := some (fd, fc) })
      else
        ({ success := true, message := "Server(s) started successfully",
           backendSpawned := some (directory, command) }, st1)
    else
      ({ success := true, message := "Server(s) started successfully",
         backendSpawned := some (directory, command) }, st1)

/-- Embedding of `ServerManager.stop` (happy path of the process-tree
teardown; `psutil` failures that would also clear the handle are not
distinguished). -/
def smStop (st : SMState) : StartResult × SMState :=
  if st.process = none ∨ st.is_running = false then
    ({ success := false, message := "No server is running" }, st)
  else
    ({ success := true, message := "Server stopped successfully" },
     { st with process := none, frontend_process := none, is_running := false })

/-- Embedding of `ServerManager.restart`: stop, bail out only when the stop
failed while something is still running, then start with the given
arguments. -/
def smRestart (env : FSEnv) (st : SMState) (directory command : String)
    (frontend_directory frontend_command : Option String) :
    StartResult × SMState :=
  let p := smStop st
  if p.1.success = false ∧ p.2.is_running = true then p
  else smStart env p.2 directory command frontend_directory frontend_command

/-- Responses of the `POST /api/server` handler: an `HTTPException` or the
supervisor's result dict. -/
inductive ControlResponse where
  | httpError (status : Nat) (detail : String)
  | ok (r : StartResult)
deriving DecidableEq

/-- Embedding of `control_server` (`backend/main.py`): 404 with no config
record, 400 with unconfigured directory/command, the same-directory frontend
drop on the `start` action only, and a verbatim pass-through of the
configured frontend on `restart` (the tunnel-ensure step after restart
belongs to the network subsystem and has no effect on the supervisor
observables). -/
def controlServer (env : FSEnv) (config : Option ProjectConfigRec)
    (action : String) (st : SMState) : ControlResponse × SMState :=
  match config with
  | none => (.httpError 404 "Configuration not found", st)
  | some c =>
      if !(pyTruthyStr c.directory && pyTruthyStr c.command) then
        (.httpError 400 "Server directory and command must be configured", st)
      else
        let dir := c.directory.getD ""
        let cmd := c.command.getD ""
        if action = "start" then
          let dropSame :=
            pyTruthyStr c.frontend_directory && pyTruthyStr c.directory &&
              (env.normpath (c.frontend_directory.getD "") == env.normpath dir)
          let fdir := if dropSame then none else c.frontend_directory
          let fcmd := if dropSame then none else c.frontend_command
          let p := smStart env st dir cmd fdir fcmd
          (.ok p.1, p.2)
        else if action = "stop" then
          let p := smStop st
          (.ok p.1, p.2)
        else if action = "restart" then
          let p := smRestart env st dir cmd c.frontend_directory c.frontend_command
          (.ok p.1, p.2)
        else (.httpError 400 "Invalid action", st)

/-! ## Tunnel supervisor (`backend/network_manager.py`) -/

/-- A tunnel agent process handle; `alive` reflects `poll() is None`. -/
structure TunnelProc where
  alive : Bool
deriving DecidableEq

/-- Embedding of the mutable fields of `NetworkManager`. -/
structure NMState where
  ngrok_process : Option TunnelProc := none
  ngrok_url : Option String := none
  cloudflare_process : Option TunnelProc := none
  cloudflare_url : Option String := none
deriving DecidableEq

/-- Queue-enabled flag of the configuration as the tunnel code reads it
(`if config and config.queue_enabled`). -/
def cfgQueueEnabled : Option ProjectConfigRec → Bool
  | some c => pyTruthy c.queue_enabled
  | none => false

/-- Internal port computed by `start_ngrok`: the admin port 1338 when the
queue is enabled, else the requested port. -/
def ngrokTargetPort (config : Option ProjectConfigRec) (port : Nat) : Nat :=
  match config with
  | some c => if pyTruthy c.queue_enabled then 1338 else port
  | none => port

/-- Internal port computed by `start_cloudflare` (textually the same logic
as in `start_ngrok`). -/
def cloudflareTargetPort (config : Option ProjectConfigRec) (port : Nat) : Nat :=
  match config with
  | some c => if pyTruthy c.queue_enabled then 1338 else port
  | none => port

/-- Observation of one tunnel `start` call: the result dict plus the
internal port actually handed to the spawned agent (`none` when no agent
was spawned). -/
structure TunnelStartObs where
  success : Bool
  url : Option String := none
  message : String := ""
  spawnedPort : Option Nat := none
deriving DecidableEq

/-- Spawn phase of `start_ngrok`: run the agent on the computed internal
port, then ask the local control API for the public URL (`apiUrl` is the
oracle for that exchange; `none` models a failed retrieval, which leaves the
agent running but reports failure). -/
def spawnNgrok (st : NMState) (config : Option ProjectConfigRec) (port : Nat)
    (apiUrl : Option String) : TunnelStartObs × NMState :=
  let tp := ngrokTargetPort config port
  let st1 := { st with ngrok_process := some { alive := true } }
  match apiUrl with
  | some u =>
      ({ success := true, url := some u, message := "ngrok started successfully",
         spawnedPort := some tp },
       { st1 with ngrok_url := some u })
  | none =>
      ({ success := false,
         message := "Failed to retrieve ngrok URL. Is ngrok running?",
         spawnedPort := some tp }, st1)

/-- Embedding of `NetworkManager.start_ngrok`: idempotent success when the
agent is alive with a known URL; a dead handle is cleaned up before the
fresh spawn. -/
def startNgrok (st : NMState) (config : Option ProjectConfigRec) (port : Nat)
    (apiUrl : Option String) : TunnelStartObs × NMState :=
  match st.ngrok_process with
  | some p =>
      if p.alive && pyTruthyStr st.ngrok_url then
        ({ success := true, url := st.ngrok_url,
           message := "ngrok already running" }, st)
      else
        spawnNgrok { st with ngrok_process := none, ngrok_url := none }
          config port apiUrl
  | none => spawnNgrok st config port apiUrl

/-- Embedding of `NetworkManager.stop_cloudflare` (handle and URL cleared
when a process exists). -/
def stopCloudflare (st : NMState) : NMState :=
  if st.cloudflare_process = none then st
  else { st with cloudflare_process := none, cloudflare_url := none }

/-- Spawn phase of `start_cloudflare`: the agent is spawned on the computed
internal port and a scanner thread looks for the public URL in its output
(`scannedUrl` is the oracle for the 10-second wait). -/
def spawnCloudflare (st : NMState) (config : Option ProjectConfigRec)
    (port : Nat) (scannedUrl : Option String) : TunnelStartObs × NMState :=
  let tp := cloudflareTargetPort config port
  let st1 := { st with cloudflare_process := some { alive := true } }
  match scannedUrl with
  | some u =>
      ({ success := true, url := some u,
         message := "Cloudflare tunnel started: " ++ u, spawnedPort := some tp },
       { st1 with cloudflare_url := some u })
  | none =>
      ({ success := false,
         message := "Cloudflare started but URL not found (check logs)",
         spawnedPort := some tp }, st1)

/-- Embedding of `NetworkManager.start_cloudflare`: idempotent success when
alive with a URL, cleanup of a dead handle via `stop_cloudflare`, an
installed-check before any spawn, then the spawn phase. -/
def startCloudflare (st : NMState) (config : Option ProjectConfigRec)
    (port : Nat) (installed : Bool) (scannedUrl : Option String) :
    TunnelStartObs × NMState :=
  match st.cloudflare_process with
  | some p =>
      if p.alive && pyTruthyStr st.cloudflare_url then
        ({ success := true, url := st.cloudflare_url,
           message := "cloudflared already running" }, st)
      else if !installed then
        ({ success := false, message := "cloudflared not found in PATH" },
         stopCloudflare st)
      else spawnCloudflare (stopCloudflare st) config port scannedUrl
  | none =>
      if !installed then
        ({ success := false, message := "cloudflared not found in PATH" }, st)
      else spawnCloudflare st config port scannedUrl

/-! ## Traffic recorder (`backend/traffic_monitor.py`) -/

/-- Embedding of the `RequestLog` dataclass (`latency_ms` is carried as an
integer stand-in for the float payload; no arithmetic on it is claimed). -/
structure RequestLog where
  timestamp : String
  method : String
  path : String
  status : Nat
  latency_ms : Int
  client_ip : String
  user_agent : String
  bytes_in : Nat
  bytes_out : Nat
deriving DecidableEq

/-- Per-endpoint aggregation record. -/
structure EndpointStat where
  count : Nat
  errors : Nat
  total_latency : Int
  method : String
  path : String
deriving DecidableEq

/-- Embedding of the mutable fields of `TrafficMonitor`; the two `deque`
ring buffers are lists with explicit capacity. -/
structure TrafficMonitor where
  max_history : Nat := 500
  request_history : List RequestLog := []
  endpoint_stats : List (String × EndpointStat) := []
  total_requests : Nat := 0
  total_errors : Nat := 0
  total_latency_ms : Int := 0
  bytes_in_total : Nat := 0
  bytes_out_total : Nat := 0
  recent_timestamps : List Nat := []
deriving DecidableEq

/-- Append to a `deque(maxlen=cap)`: the oldest entries fall off the left
once the capacity is reached. -/
def dequeAppend (cap : Nat) (l : List α) (x : α) : List α :=
  let grown := l ++ [x]
  if cap < grown.length then grown.drop (grown.length - cap) else grown

/-- Query-stripping for the aggregation key (`path.split('?')[0]`). -/
def stripQuery (path : String) : String :=
  (path.splitOn "?").headD path

/-- Insertion-or-update of the per-endpoint stats dict on one request. -/
def updateEndpointStats (stats : List (String × EndpointStat)) (key : String)
    (method pathNoQ : String) (status : Nat) (latency : Int) :
    List (String × EndpointStat) :=
  let stats1 :=
    if (stats.lookup key).isSome then stats
    else stats ++ [(key, { count := 0, errors := 0, total_latency := 0,
                           method := method, path := pathNoQ })]
  stats1.map (fun kv =>
    if kv.1 = key then
      (kv.1, { kv.2 with
        count := kv.2.count + 1,
        total_latency := kv.2.total_latency + latency,
        errors := kv.2.errors + (if 400 ≤ status then 1 else 0) })
    else kv)

/-- Embedding of `TrafficMonitor.log_request` (the float rounding of the
recorded latency is the identity in the integer model; the user agent is
truncated to 100 characters). -/
def logRequest (tm : TrafficMonitor) (method path : String) (status : Nat)
    (latency_ms : Int) (client_ip user_agent : String)
    (bytes_in bytes_out : Nat) (nowIso : String) (nowTs : Nat) :
    TrafficMonitor :=
  let entry : RequestLog :=
    { timestamp := nowIso, method := method, path := path, status := status,
      latency_ms := latency_ms, client_ip := client_ip,
      user_agent := user_agent.take 100, bytes_in := bytes_in,
      bytes_out := bytes_out }
  { tm with
    request_history := dequeAppend tm.max_history tm.request_history entry,
    total_requests := tm.total_requests + 1,
    total_latency_ms := tm.total_latency_ms + latency_ms,
    bytes_in_total := tm.bytes_in_total + bytes_in,
    bytes_out_total := tm.bytes_out_total + bytes_out,
    total_errors := tm.total_errors + (if 400 ≤ status then 1 else 0),
    recent_timestamps := dequeAppend 100 tm.recent_timestamps nowTs,
    endpoint_stats := updateEndpointStats tm.endpoint_stats
      (method ++ " " ++ stripQuery path) method (stripQuery path) status
      latency_ms }

/-- Python slice `l[start:]` for a possibly negative start. -/
def pySliceFrom (start : Int) (l : List α) : List α :=
  if start < 0 then l.drop ((l.length : Int) + start).toNat
  else l.drop start.toNat

/-- Embedding of `TrafficMonitor.get_recent_requests`: the slice
`list(history)[-count:]`, reversed (most recent first). -/
def getRecentRequests (tm : TrafficMonitor) (count : Int) : List RequestLog :=
  (pySliceFrom (-count) tm.request_history).reverse

/-- Embedding of the `GET /api/traffic/requests` handler: the query
parameter is clamped from above to 200 only, then handed to the recorder. -/
def apiTrafficRequests (tm : TrafficMonitor) (count : Int) : List RequestLog :=
  getRecentRequests tm (min count 200)

/-! ## Operation traces over the admission controller -/

/-- Public admission-controller operations (state effect only). -/
inductive QOp where
  | join (session_id : Option String) (is_localhost : Bool) (freshId : String) (now : Nat)
  | heartbeat (session_id : String) (now : Nat)
  | leave (session_id : String)
  | reap (now : Nat)
  | configure (max_concurrent : Nat) (prioritize_localhost : Bool)
deriving DecidableEq

/-- State effect of one public operation. -/
def applyOp (qm : QueueManager) : QOp → QueueManager
  | .join sid loc fresh now => (joinQueue qm sid loc fresh now).2
  | .heartbeat sid now => (heartbeat qm sid now).2
  | .leave sid => (leaveQueue qm sid).2
  | .reap now => checkTimeouts qm now
  | .configure c p => configure qm c p

/-- State after a sequence of public operations. -/
def applyOps (qm : QueueManager) (ops : List QOp) : QueueManager :=
  ops.foldl applyOp qm

/-- Running maximum of the concurrency cap over one operation (caps are
coerced to at least 1 by `configure`). -/
def opMaxCap (m : Nat) : QOp → Nat
  | .configure c _ => max m (max 1 c)
  | _ => m

/-- Largest concurrency cap in effect at any point of a trace, starting
from cap `m`. -/
def traceMaxCap (m : Nat) : List QOp → Nat
  | [] => m
  | op :: rest => traceMaxCap (opMaxCap m op) rest

/-- Invariant tying the active-set size to a cap bound `m`: the active set
holds at most `m` entries beyond its localhost-flagged ones, and the current
cap is at most `m`. -/
def CapInv (m : Nat) (qm : QueueManager) : Prop :=
  qm.active_users.length ≤ m + countLocalhostActive qm ∧ qm.max_concurrent ≤ m

/-! ## Theorems -/

/-! ### Helper lemmas on list operations of the queue manager -/

lemma setPositionsFrom_length (n : Nat) (l : List QueueUser) :
    (setPositionsFrom n l).length = l.length := by
  induction l generalizing n with
  | nil => rfl
  | cons u rest ih => simp [setPositionsFrom, ih]

lemma setPositionsFrom_countP (n : Nat) (l : List QueueUser) :
    (setPositionsFrom n l).countP (fun u => u.is_localhost) =
      l.countP (fun u => u.is_localhost) := by
  induction l generalizing n with
  | nil => rfl
  | cons u rest ih => simp [setPositionsFrom, List.countP_cons, ih]

lemma updatePositions_length (l : List QueueUser) :
    (updatePositions l).length = l.length := setPositionsFrom_length 1 l

lemma promoteLoop_bound (m cap : Nat) (hcap : cap ≤ m) :
    ∀ (waiting active : List QueueUser),
      active.length ≤ m + active.countP (fun u => u.is_localhost) →
      (promoteLoop cap active waiting).1.length ≤
        m + (promoteLoop cap active waiting).1.countP (fun u => u.is_localhost) := by
  intro waiting
  induction waiting with
  | nil => intro active h; simpa [promoteLoop] using h
  | cons u rest ih =>
      intro active h
      by_cases hlt : active.length < cap
      · have hstep : (active ++ [{ u with is_active := true, position := 0 }]).length ≤
            m + List.countP (fun v : QueueUser => v.is_localhost)
              (active ++ [{ u with is_active := true, position := 0 }]) := by
          have hlen : (active ++ [{ u with is_active := true, position := 0 }]).length =
              active.length + 1 := by simp
          omega
        have := ih (active ++ [{ u with is_active := true, position := 0 }]) hstep
        simpa [promoteLoop, hlt] using this
      · simpa [promoteLoop, hlt] using h

lemma removeFirst_tradeoff (sid : String) :
    ∀ l : List QueueUser,
      l.countP (fun u => u.is_localhost) + (removeFirstSession l sid).length ≤
        (removeFirstSession l sid).countP (fun u => u.is_localhost) + l.length := by
  intro l
  induction l with
  | nil => simp [removeFirstSession]
  | cons u rest ih =>
      by_cases hu : u.session_id = sid
      · simp only [removeFirstSession, if_pos hu, List.countP_cons, List.length_cons]
        by_cases hl : u.is_localhost <;> simp [hl] <;> omega
      · simp only [removeFirstSession, if_neg hu, List.countP_cons, List.length_cons]
        by_cases hl : u.is_localhost <;> simp [hl] <;> omega

lemma filter_tradeoff (p : QueueUser → Bool) :
    ∀ l : List QueueUser,
      l.countP (fun u => u.is_localhost) + (l.filter p).length ≤
        (l.filter p).countP (fun u => u.is_localhost) + l.length := by
  intro l
  induction l with
  | nil => simp
  | cons u rest ih =>
      by_cases hp : p u
      · simp only [List.filter_cons, hp, if_pos, List.countP_cons, List.length_cons]
        by_cases hl : u.is_localhost <;> simp [hl] <;> omega
      · simp only [List.filter_cons, hp, Bool.false_eq_true, if_neg, not_false_iff,
          List.countP_cons, List.length_cons]
        by_cases hl : u.is_localhost <;> simp [hl] <;> omega

lemma refreshFirst_length (l : List QueueUser) (sid : String) (now : Nat) :
    (refreshFirst l sid now).length = l.length := by
  induction l with
  | nil => rfl
  | cons u rest ih =>
      by_cases hu : u.session_id = sid <;> simp [refreshFirst, hu, ih]

lemma refreshFirst_countP (l : List QueueUser) (sid : String) (now : Nat) :
    (refreshFirst l sid now).countP (fun u => u.is_localhost) =
      l.countP (fun u => u.is_localhost) := by
  induction l with
  | nil => rfl
  | cons u rest ih =>
      by_cases hu : u.session_id = sid <;>
        simp [refreshFirst, hu, List.countP_cons, ih]

lemma joinQueue_state_cases (qm : QueueManager) (sid : Option String) (loc : Bool)
    (fresh : String) (now : Nat) :
    (joinQueue qm sid loc fresh now).2 = qm ∨
    (∃ u : QueueUser, u.is_localhost = true ∧
        (joinQueue qm sid loc fresh now).2 =
          { qm with active_users := qm.active_users ++ [u] }) ∨
    (qm.active_users.length < qm.max_concurrent ∧ ∃ u : QueueUser,
        (joinQueue qm sid loc fresh now).2 =
          { qm with active_users := qm.active_users ++ [u] }) ∨
    (∃ w, (joinQueue qm sid loc fresh now).2 = { qm with waiting_users := w }) := by
  simp only [joinQueue]
  split
  · exact Or.inl rfl
  · split
    · exact Or.inl rfl
    · split
      · exact Or.inr (Or.inl ⟨_, rfl, rfl⟩)
      · split
        · rename_i hroom
          exact Or.inr (Or.inr (Or.inl ⟨hroom, _, rfl⟩))
        · exact Or.inr (Or.inr (Or.inr ⟨_, rfl⟩))

lemma joinQueue_capInv (m : Nat) (qm : QueueManager) (sid : Option String)
    (loc : Bool) (fresh : String) (now : Nat) (h : CapInv m qm) :
    CapInv m (joinQueue qm sid loc fresh now).2 := by
  obtain ⟨h1, h2⟩ := h
  rcases joinQueue_state_cases qm sid loc fresh now with hq | ⟨u, hu, hq⟩ |
    ⟨hroom, u, hq⟩ | ⟨w, hq⟩
  · rw [hq]; exact ⟨h1, h2⟩
  · rw [hq]
    refine ⟨?_, h2⟩
    simp only [countLocalhostActive] at h1 ⊢
    simp only [List.countP_append, List.length_append, List.countP_cons,
      List.countP_nil, List.length_cons, List.length_nil, hu]
    simp
    omega
  · rw [hq]
    refine ⟨?_, h2⟩
    simp only [countLocalhostActive] at h1 ⊢
    simp only [List.countP_append, List.length_append, List.length_cons,
      List.length_nil]
    omega
  · rw [hq]; exact ⟨h1, h2⟩

lemma heartbeat_capInv (m : Nat) (qm : QueueManager) (sid : String) (now : Nat)
    (h : CapInv m qm) : CapInv m (heartbeat qm sid now).2 := by
  obtain ⟨h1, h2⟩ := h
  unfold heartbeat
  split
  · exact ⟨by simpa [countLocalhostActive, refreshFirst_length, refreshFirst_countP] using h1, h2⟩
  · split
    · exact ⟨h1, h2⟩
    · exact ⟨h1, h2⟩

lemma promoteWaitingUsers_capInv (m : Nat) (qm : QueueManager)
    (h1 : qm.active_users.length ≤ m + countLocalhostActive qm)
    (h2 : qm.max_concurrent ≤ m) : CapInv m (promoteWaitingUsers qm) := by
  refine ⟨?_, h2⟩
  simpa [promoteWaitingUsers, countLocalhostActive] using
    promoteLoop_bound m qm.max_concurrent h2 qm.waiting_users qm.active_users h1

lemma leaveQueue_capInv (m : Nat) (qm : QueueManager) (sid : String)
    (h : CapInv m qm) : CapInv m (leaveQueue qm sid).2 := by
  obtain ⟨h1, h2⟩ := h
  unfold leaveQueue
  split
  · refine promoteWaitingUsers_capInv m _ ?_ h2
    have := removeFirst_tradeoff sid qm.active_users
    simp only [countLocalhostActive] at *
    have hc := List.countP_le_length (l := removeFirstSession qm.active_users sid)
      (p := fun u => u.is_localhost)
    omega
  · split
    · exact ⟨h1, h2⟩
    · exact ⟨h1, h2⟩

lemma checkTimeouts_capInv (m : Nat) (qm : QueueManager) (now : Nat)
    (h : CapInv m qm) : CapInv m (checkTimeouts qm now) := by
  obtain ⟨h1, h2⟩ := h
  simp only [checkTimeouts]
  have hfb := filter_tradeoff
    (fun u => !(u.last_heartbeat < now - qm.heartbeat_timeout)) qm.active_users
  have hc := List.countP_le_length
    (l := qm.active_users.filter (fun u => !(u.last_heartbeat < now - qm.heartbeat_timeout)))
    (p := fun u => u.is_localhost)
  split
  · refine promoteWaitingUsers_capInv m _ ?_ h2
    simp only [countLocalhostActive] at *
    omega
  · refine ⟨?_, h2⟩
    simp only [countLocalhostActive] at *
    omega

lemma configure_capInv (m : Nat) (qm : QueueManager) (c : Nat) (p : Bool)
    (h : CapInv m qm) : CapInv (max m (max 1 c)) (configure qm c p) := by
  obtain ⟨h1, h2⟩ := h
  constructor
  · simp only [configure, countLocalhostActive] at h1 ⊢
    have hle : m ≤ max m (max 1 c) := le_max_left _ _
    omega
  · simp only [configure]
    exact le_max_right _ _

lemma applyOp_capInv (m : Nat) (qm : QueueManager) (op : QOp)
    (h : CapInv m qm) : CapInv (opMaxCap m op) (applyOp qm op) := by
  cases op with
  | join sid loc fresh now => exact joinQueue_capInv m qm sid loc fresh now h
  | heartbeat sid now => exact heartbeat_capInv m qm sid now h
  | leave sid => exact leaveQueue_capInv m qm sid h
  | reap now => exact checkTimeouts_capInv m qm now h
  | configure c p => exact configure_capInv m qm c p h

lemma applyOps_capInv (ops : List QOp) :
    ∀ (m : Nat) (qm : QueueManager), CapInv m qm →
      CapInv (traceMaxCap m ops) (applyOps qm ops) := by
  induction ops with
  | nil => intro m qm h; exact h
  | cons op rest ih =>
      intro m qm h
      exact ih (opMaxCap m op) (applyOp qm op) (applyOp_capInv m qm op h)

lemma refreshFirst_map_eraseHb (l : List QueueUser) (sid : String) (now : Nat) :
    (refreshFirst l sid now).map eraseHb = l.map eraseHb := by
  induction l with
  | nil => rfl
  | cons u rest ih =>
      by_cases hu : u.session_id = sid
      · simp only [refreshFirst, if_pos hu, List.map_cons]
        rfl
      · simp only [refreshFirst, if_neg hu, List.map_cons, ih]

lemma refreshFirst_mem_of_ne (l : List QueueUser) (sid : String) (now : Nat) :
    ∀ u ∈ l, u.session_id ≠ sid → u ∈ refreshFirst l sid now := by
  induction l with
  | nil => intro u hu; exact absurd hu (List.not_mem_nil u)
  | cons v rest ih =>
      intro u hmem hne
      by_cases hv : v.session_id = sid
      · simp only [refreshFirst, if_pos hv]
        rcases List.mem_cons.mp hmem with rfl | h
        · exact absurd hv hne
        · exact List.mem_cons_of_mem _ h
      · simp only [refreshFirst, if_neg hv]
        rcases List.mem_cons.mp hmem with rfl | h
        · exact List.mem_cons_self _ _
        · exact List.mem_cons_of_mem _ (ih u h hne)

/-- C2 counterexample: on the spec's own Scenario B (cap = 1, non-localhost
`S1` active, localhost `SL` joins under priority), the active set has 2
entries while `max(concurrency_cap, localhost_count) = 1`, so the claimed
bound fails immediately after a `join`, before any `configure`. -/
theorem C2_active_bound_counterexample :
    ¬ ((applyOps initQM
          [QOp.join (some "S1") false "F1" 0,
           QOp.join (some "SL") true "F2" 1]).active_users.length ≤
        max (applyOps initQM
          [QOp.join (some "S1") false "F1" 0,
           QOp.join (some "SL") true "F2" 1]).max_concurrent
          (countLocalhostActive (applyOps initQM
            [QOp.join (some "S1") false "F1" 0,
             QOp.join (some "SL") true "F2" 1]))) := by
  decide

/-- C2 amended: after any sequence of public admission-controller operations
from the initial state, the active-set size is at most the *sum* of the
largest concurrency cap in effect so far and the number of currently-active
localhost-flagged entries (each localhost-priority admission adds one above
the cap rather than being absorbed by a `max`, and a `configure` reduction
does not evict, so the historical maximum cap is the operative ceiling).
Moreover `configure` coerces the cap to at least 1 and leaves the active set
untouched. -/
theorem C2_active_bound_amended :
    (∀ ops : List QOp,
        (applyOps initQM ops).active_users.length ≤
          traceMaxCap 1 ops + countLocalhostActive (applyOps initQM ops)) ∧
    (∀ (qm : QueueManager) (c : Nat) (p : Bool),
        (configure qm c p).max_concurrent = max 1 c ∧
        (configure qm c p).active_users = qm.active_users) := by
  constructor
  · intro ops
    have h0 : CapInv 1 initQM := by constructor <;> simp [initQM, countLocalhostActive]
    exact (applyOps_capInv ops 1 initQM h0).1
  · intro qm c p
    exact ⟨rfl, rfl⟩

/-- C1: `join(session, is_localhost)` resolves in the specified order: an
already-active session returns active with position 0 and leaves the state
unchanged; an already-waiting session returns waiting at its current position
unchanged; otherwise a localhost session under localhost-priority is inserted
into the active set even beyond the cap; otherwise a session is inserted
active when the active set is below the cap; otherwise it is appended to the
waiting list and reported waiting at position `|waiting-list| + 1`. -/
theorem C1_join_resolution_order (qm : QueueManager) (s : String) (loc : Bool)
    (fresh : String) (now : Nat) (hs : s ≠ "") :
    (isUserActive qm s = true →
       joinQueue qm (some s) loc fresh now =
         ({ session_id := s, status := .active, position := 0,
            message := "Already active" }, qm)) ∧
    (isUserActive qm s = false →
       ∀ u, findWaiting qm.waiting_users s = some u →
       joinQueue qm (some s) loc fresh now =
         ({ session_id := s, status := .waiting, position := u.position,
            queue_length := some qm.waiting_users.length,
            message := "Already in queue" }, qm)) ∧
    (isUserActive qm s = false → findWaiting qm.waiting_users s = none →
       (loc && qm.prioritize_localhost) = true →
       joinQueue qm (some s) loc fresh now =
         ({ session_id := s, status := .active, position := 0,
            message := "Localhost priority access granted" },
          { qm with active_users := qm.active_users ++
              [{ session_id := s, joined_at := now, last_heartbeat := now,
                 position := 0, is_active := true, is_localhost := true }] })) ∧
    (isUserActive qm s = false → findWaiting qm.waiting_users s = none →
       (loc && qm.prioritize_localhost) = false →
       qm.active_users.length < qm.max_concurrent →
       joinQueue qm (some s) loc fresh now =
         ({ session_id := s, status := .active, position := 0,
            message := "Access granted" },
          { qm with active_users := qm.active_users ++
              [{ session_id := s, joined_at := now, last_heartbeat := now,
                 position := 0, is_active := true, is_localhost := loc }] })) ∧
    (isUserActive qm s = false → findWaiting qm.waiting_users s = none →
       (loc && qm.prioritize_localhost) = false →
       ¬ qm.active_users.length < qm.max_concurrent →
       joinQueue qm (some s) loc fresh now =
         ({ session_id := s, status := .waiting,
            position := qm.waiting_users.length + 1,
            queue_length := some (qm.waiting_users.length + 1),
            message := "Added to queue at position " ++
              toString (qm.waiting_users.length + 1) },
          { qm with waiting_users := updatePositions (qm.waiting_users ++
              [{ session_id := s, joined_at := now, last_heartbeat := now,
                 position := qm.waiting_users.length + 1, is_active := false,
                 is_localhost := loc }]) })) := by
  have hsid : resolveSid (some s) fresh = s := by simp [resolveSid, hs]
  refine ⟨?_, ?_, ?_, ?_, ?_⟩
  · intro h
    simp [joinQueue, hsid, h]
  · intro h u hu
    simp [joinQueue, hsid, h, hu]
  · intro h h2 h3
    simp [joinQueue, hsid, h, h2, h3]
  · intro h h2 h3 h4
    simp [joinQueue, hsid, h, h2, h3, h4]
  · intro h h2 h3 h4
    simp [joinQueue, hsid, h, h2, h3, h4]

/-- Witness for C1: a fresh non-localhost session joining the empty initial
queue is admitted active (case 4 of the resolution order). -/
theorem C1_join_resolution_order_witness :
    (joinQueue initQM (some "A") false "F" 5).1.status = QStatus.active ∧
    (joinQueue initQM (some "A") false "F" 5).2.active_users.length = 1 := by
  have h := (C1_join_resolution_order initQM "A" false "F" 5 (by decide)).2.2.2.1
    (by decide) (by decide) (by decide) (by decide)
  rw [h]
  exact ⟨rfl, rfl⟩

/-- C7: `heartbeat(session)` refreshes only the session's `last_heartbeat`:
a known active session gets `{active, position 0}` back with the waiting list,
the configuration and every field other than the heartbeat timestamps
untouched, and entries with a different session id literally unchanged; a
known waiting session symmetrically; an unknown session gets a not-found
result and the state is unchanged. -/
theorem C7_heartbeat_frame (qm : QueueManager) (s : String) (now : Nat) :
    (isUserActive qm s = true →
       (heartbeat qm s now).1 =
         { success := true, status := some .active, position := some 0 } ∧
       (heartbeat qm s now).2.active_users.map eraseHb =
         qm.active_users.map eraseHb ∧
       (heartbeat qm s now).2.waiting_users = qm.waiting_users ∧
       (heartbeat qm s now).2.max_concurrent = qm.max_concurrent ∧
       (heartbeat qm s now).2.prioritize_localhost = qm.prioritize_localhost ∧
       (∀ u ∈ qm.active_users, u.session_id ≠ s →
          u ∈ (heartbeat qm s now).2.active_users)) ∧
    (isUserActive qm s = false →
       ∀ u, findWaiting qm.waiting_users s = some u →
       (heartbeat qm s now).1 =
         { success := true, status := some .waiting, position := some u.position,
           queue_length := some qm.waiting_users.length } ∧
       (heartbeat qm s now).2.active_users = qm.active_users ∧
       (heartbeat qm s now).2.waiting_users.map eraseHb =
         qm.waiting_users.map eraseHb ∧
       (heartbeat qm s now).2.max_concurrent = qm.max_concurrent ∧
       (heartbeat qm s now).2.prioritize_localhost = qm.prioritize_localhost ∧
       (∀ v ∈ qm.waiting_users, v.session_id ≠ s →
          v ∈ (heartbeat qm s now).2.waiting_users)) ∧
    (isUserActive qm s = false → findWaiting qm.waiting_users s = none →
       heartbeat qm s now = ({ success := false }, qm)) := by
  refine ⟨?_, ?_, ?_⟩
  · intro h
    refine ⟨?_, ?_, ?_, ?_, ?_, ?_⟩
    · simp [heartbeat, h]
    · simpa [heartbeat, h] using refreshFirst_map_eraseHb qm.active_users s now
    · simp [heartbeat, h]
    · simp [heartbeat, h]
    · simp [heartbeat, h]
    · intro u hu hne
      simpa [heartbeat, h] using refreshFirst_mem_of_ne qm.active_users s now u hu hne
  · intro h u hu
    refine ⟨?_, ?_, ?_, ?_, ?_, ?_⟩
    · simp [heartbeat, h, hu]
    · simp [heartbeat, h, hu]
    · simpa [heartbeat, h, hu] using refreshFirst_map_eraseHb qm.waiting_users s now
    · simp [heartbeat, h, hu]
    · simp [heartbeat, h, hu]
    · intro v hv hne
      simpa [heartbeat, h, hu] using refreshFirst_mem_of_ne qm.waiting_users s now v hv hne
  · intro h hn
    simp [heartbeat, h, hn]

/-- Witness for C7: heartbeat of the single active session `"A"` returns
active with position 0 and leaves the waiting list unchanged. -/
theorem C7_heartbeat_frame_witness :
    (heartbeat ⟨[⟨"A", 0, 0, 0, true, false⟩], [], 30, 1, true⟩ "A" 7).1 =
      { success := true, status := some QStatus.active, position := some 0 } ∧
    (heartbeat ⟨[⟨"A", 0, 0, 0, true, false⟩], [], 30, 1, true⟩ "A" 7).2.waiting_users
      = [] := by
  have h := (C7_heartbeat_frame ⟨[⟨"A", 0, 0, 0, true, false⟩], [], 30, 1, true⟩
    "A" 7).1 (by decide)
  exact ⟨h.1, h.2.2.1⟩

/-- C10: when `POST /api/queue/join` bypasses the queue (no config record,
queue disabled, or local caller), it fabricates an active decision at
position 0 and does not mutate the admission controller: the queue-manager
state is returned unchanged, a status lookup for the session is unaffected
(in particular it stays not-found for an unknown session), and the active
count is unchanged. -/
theorem C10_join_bypass_frame (config : Option ProjectConfigRec)
    (isLocal : Bool) (sid : Option String) (fresh : String) (qm : QueueManager)
    (now : Nat)
    (hbypass : config = none ∨
      (∃ c, config = some c ∧ pyTruthy c.queue_enabled = false) ∨
      isLocal = true) :
    apiQueueJoin config isLocal sid fresh qm now =
      ({ session_id := resolveSid sid fresh, status := .active, position := 0,
         message := "Access granted (queue bypassed)" }, qm) ∧
    (apiQueueJoin config isLocal sid fresh qm now).2 = qm ∧
    getUserStatus (apiQueueJoin config isLocal sid fresh qm now).2
        (resolveSid sid fresh) =
      getUserStatus qm (resolveSid sid fresh) ∧
    (getUserStatus qm (resolveSid sid fresh) = none →
       getUserStatus (apiQueueJoin config isLocal sid fresh qm now).2
         (resolveSid sid fresh) = none) ∧
    (apiQueueJoin config isLocal sid fresh qm now).2.active_users.length =
      qm.active_users.length := by
  have h : apiQueueJoin config isLocal sid fresh qm now =
      ({ session_id := resolveSid sid fresh, status := .active, position := 0,
         message := "Access granted (queue bypassed)" }, qm) := by
    rcases hbypass with rfl | ⟨c, rfl, hc⟩ | rfl
    · rfl
    · simp [apiQueueJoin, hc]
    · cases config with
      | none => rfl
      | some c => simp [apiQueueJoin]
  refine ⟨h, ?_, ?_, ?_, ?_⟩ <;> rw [h]
  · intro hnone
    exact hnone

/-- Witness for C10: with no configuration record, joining with session
`"Z"` over the API returns a fabricated active decision and the initial
queue state is untouched, so a status lookup for `"Z"` is still not-found. -/
theorem C10_join_bypass_frame_witness :
    apiQueueJoin none false (some "Z") "F" initQM 0 =
      ({ session_id := "Z", status := QStatus.active, position := 0,
         message := "Access granted (queue bypassed)" }, initQM) ∧
    getUserStatus (apiQueueJoin none false (some "Z") "F" initQM 0).2 "Z" =
      none := by
  have h := C10_join_bypass_frame none false (some "Z") "F" initQM 0 (Or.inl rfl)
  constructor
  · simpa [resolveSid] using h.1
  · simpa [resolveSid] using h.2.2.2.1 (by decide)

/-- C3: with the queue enabled, when the admission decision for the
resolved session is waiting, the proxy never issues the outbound request:
it serves the waiting-room HTML (session injected into a script tag before
`</head>`, status 200, session cookie set) when the file exists, and a 503
JSON body when the file is missing. -/
theorem C3_waiting_never_forwarded (c : ProjectConfigRec)
    (clientIp xff : String) (cookie : Option String)
    (fresh reqPath query : String) (wr : Option String)
    (target : TargetBehavior) (qm0 : QueueManager) (now : Nat)
    (hq : pyTruthy c.queue_enabled = true)
    (hw : (joinQueue
        (configure qm0 (pyOrOne c.max_concurrent_users)
          (c.prioritize_localhost.getD true))
        (some (resolveCookieSession cookie fresh).1)
        (resolveIsLocalhost clientIp xff) fresh now).1.status =
      QStatus.waiting) :
    (proxyToTarget (some c) clientIp xff cookie fresh reqPath query wr target
        qm0 now).contacted_target = false ∧
    (∀ html, wr = some html →
      (proxyToTarget (some c) clientIp xff cookie fresh reqPath query wr target
          qm0 now).response =
        .waitingRoom200
          (html.replace "</head>"
            (injectionScript (resolveCookieSession cookie fresh).1 ++ "</head>"))
          (resolveCookieSession cookie fresh).1) ∧
    (wr = none →
      (proxyToTarget (some c) clientIp xff cookie fresh reqPath query wr target
          qm0 now).response = .waitingRoomMissing503) := by
  refine ⟨?_, ?_, ?_⟩
  · cases wr with
    | none => simp [proxyToTarget, hq, hw]
    | some html => simp [proxyToTarget, hq, hw]
  · intro html hwr
    subst hwr
    simp [proxyToTarget, hq, hw]
  · intro hwr
    subst hwr
    simp [proxyToTarget, hq, hw]

/-- Witness for C3: cap 1 with `"A"` active and queue enabled, the
non-localhost session `"B"` gets a waiting decision and is served the
waiting room with the injected session, without the target being
contacted. -/
theorem C3_waiting_never_forwarded_witness :
    (proxyToTarget
        (some { port := some 8000, queue_enabled := some true,
                max_concurrent_users := some 1 })
        "9.9.9.9" "" (some "B") "F" "/preview" ""
        (some "<html><head></head></html>") TargetBehavior.connError
        ⟨[⟨"A", 0, 0, 0, true, false⟩], [], 30, 1, true⟩ 3).contacted_target =
      false ∧
    (proxyToTarget
        (some { port := some 8000, queue_enabled := some true,
                max_concurrent_users := some 1 })
        "9.9.9.9" "" (some "B") "F" "/preview" ""
        (some "<html><head></head></html>") TargetBehavior.connError
        ⟨[⟨"A", 0, 0, 0, true, false⟩], [], 30, 1, true⟩ 3).response =
      .waitingRoom200
        (("<html><head></head></html>").replace "</head>"
          (injectionScript "B" ++ "</head>")) "B" := by
  have h := C3_waiting_never_forwarded
    { port := some 8000, queue_enabled := some true,
      max_concurrent_users := some 1 }
    "9.9.9.9" "" (some "B") "F" "/preview" ""
    (some "<html><head></head></html>") TargetBehavior.connError
    ⟨[⟨"A", 0, 0, 0, true, false⟩], [], 30, 1, true⟩ 3 (by decide) (by decide)
  refine ⟨h.1, ?_⟩
  simpa [resolveCookieSession] using h.2.1 "<html><head></head></html>" rfl

/-- C4 counterexample: a configuration record that exists but has no target
port does not yield a 503: with the queue disabled the proxy walks to the
forward step, the malformed URL raises inside the request layer, and the
generic handler answers 502 Bad Gateway (still without contacting the
target). -/
theorem C4_missing_port_counterexample :
    (proxyToTarget (some { port := none, queue_enabled := some false })
        "9.9.9.9" "" (some "S") "F" "/preview" "" none TargetBehavior.connError
        initQM 0).response = ProxyResponse.badGateway502 "InvalidURL" ∧
    is503 (proxyToTarget (some { port := none, queue_enabled := some false })
        "9.9.9.9" "" (some "S") "F" "/preview" "" none TargetBehavior.connError
        initQM 0).response = false := by
  decide

/-- C4 amended: only a missing configuration record yields the 503 (without
contacting the target).  A record whose port is absent never leads to the
target being contacted either, but the response is not a 503: on the forward
path (queue disabled) the request layer rejects the malformed URL and the
proxy answers 502 Bad Gateway. -/
theorem C4_missing_port_amended (clientIp xff : String) (cookie : Option String)
    (fresh reqPath query : String) (wr : Option String)
    (target : TargetBehavior) (qm0 : QueueManager) (now : Nat) :
    (proxyToTarget none clientIp xff cookie fresh reqPath query wr target qm0
        now =
      { response := .noProject503, contacted_target := false, qm := qm0 }) ∧
    (∀ c : ProjectConfigRec, c.port = none →
      (proxyToTarget (some c) clientIp xff cookie fresh reqPath query wr target
          qm0 now).contacted_target = false ∧
      (pyTruthy c.queue_enabled = false →
        (proxyToTarget (some c) clientIp xff cookie fresh reqPath query wr
            target qm0 now).response = .badGateway502 "InvalidURL")) := by
  constructor
  · rfl
  · intro c hport
    constructor
    · simp only [proxyToTarget]
      by_cases hq : pyTruthy c.queue_enabled
      · simp only [hq, if_true]
        split
        · cases wr <;> simp
        · simp [hport, forwardToTarget]
      · simp [hq, hport, forwardToTarget]
    · intro hq
      simp [proxyToTarget, hq, hport, forwardToTarget]

/-- Witness for C4 amended: a missing record yields the 503; a record with
`port = None` and queue disabled yields the 502 without contacting the
target. -/
theorem C4_missing_port_amended_witness :
    (proxyToTarget none "1.2.3.4" "" none "F" "/" "" none
        TargetBehavior.connError initQM 0).response =
      ProxyResponse.noProject503 ∧
    (proxyToTarget (some { port := none }) "1.2.3.4" "" none "F" "/" "" none
        TargetBehavior.connError initQM 0).contacted_target = false ∧
    (proxyToTarget (some { port := none }) "1.2.3.4" "" none "F" "/" "" none
        TargetBehavior.connError initQM 0).response =
      ProxyResponse.badGateway502 "InvalidURL" := by
  have h := C4_missing_port_amended "1.2.3.4" "" none "F" "/" "" none
    TargetBehavior.connError initQM 0
  refine ⟨by rw [h.1], (h.2 { port := none } rfl).1,
    (h.2 { port := none } rfl).2 rfl⟩

/-- C5 counterexample: `POST /api/server` with action `restart`, a frontend
configured in the *same* directory as the backend, and a benign filesystem:
the frontend is not dropped — the supervisor is invoked with the configured
frontend and a second process is spawned. -/
theorem C5_same_dir_frontend_counterexample :
    (controlServer ⟨fun _ => true, fun _ => true, fun s => s⟩
        (some { directory := some "app", command := some "run",
                frontend_directory := some "app",
                frontend_command := some "fe run" })
        "restart" {}).1 =
      ControlResponse.ok
        { success := true, message := "Server(s) started successfully",
          backendSpawned := some ("app", "run"),
          frontendSpawned := some ("app", "fe run") } := by
  decide

/-- C5 amended: only the `start` action silently drops a same-directory
frontend (the supervisor is then invoked without frontend directory and
command, so no second process is spawned); `stop` spawns nothing; `restart`
passes the configured frontend directory and command to the supervisor
verbatim, so a same-directory frontend IS spawned there when its directory
exists. -/
theorem C5_same_dir_frontend_amended (env : FSEnv) (c : ProjectConfigRec)
    (st : SMState)
    (hdir : pyTruthyStr c.directory = true)
    (hcmd : pyTruthyStr c.command = true) :
    (pyTruthyStr c.frontend_directory = true →
      env.normpath (c.frontend_directory.getD "") =
        env.normpath (c.directory.getD "") →
      controlServer env (some c) "start" st =
        ((ControlResponse.ok
            (smStart env st (c.directory.getD "") (c.command.getD "")
              none none).1),
         (smStart env st (c.directory.getD "") (c.command.getD "")
           none none).2)) ∧
    ((controlServer env (some c) "stop" st).1 =
        ControlResponse.ok (smStop st).1 ∧
      (smStop st).1.backendSpawned = none ∧
      (smStop st).1.frontendSpawned = none) ∧
    (controlServer env (some c) "restart" st =
      ((ControlResponse.ok
          (smRestart env st (c.directory.getD "") (c.command.getD "")
            c.frontend_directory c.frontend_command).1),
       (smRestart env st (c.directory.getD "") (c.command.getD "")
         c.frontend_directory c.frontend_command).2)) := by
  refine ⟨?_, ⟨?_, ?_, ?_⟩, ?_⟩
  · intro hfd hnorm
    simp [controlServer, hdir, hcmd, hfd, hnorm]
  · simp [controlServer, hdir, hcmd]
  · by_cases h : st.process = none ∨ st.is_running = false <;> simp [smStop, h]
  · by_cases h : st.process = none ∨ st.is_running = false <;> simp [smStop, h]
  · simp [controlServer, hdir, hcmd]

/-- Witness for C5 amended: on the `start` action with the same-directory
frontend, the supervisor result has no frontend spawned. -/
theorem C5_same_dir_frontend_amended_witness :
    (controlServer ⟨fun _ => true, fun _ => true, fun s => s⟩
        (some { directory := some "app", command := some "run",
                frontend_directory := some "app",
                frontend_command := some "fe run" })
        "start" {}).1 =
      ControlResponse.ok
        { success := true, message := "Server(s) started successfully",
          backendSpawned := some ("app", "run"), frontendSpawned := none } := by
  have h := (C5_same_dir_frontend_amended
    ⟨fun _ => true, fun _ => true, fun s => s⟩
    { directory := some "app", command := some "run",
      frontend_directory := some "app", frontend_command := some "fe run" }
    {} (by decide) (by decide)).1 (by decide) rfl
  rw [h]
  decide

/-- C9: the dangerous-pattern filter of the supervisor is applied only to
the backend command: with a clean backend command and a frontend command
containing the forbidden character `|`, `start` succeeds and spawns the
frontend command verbatim. -/
theorem C9_frontend_command_not_filtered :
    (smStart ⟨fun _ => true, fun _ => true, fun s => s⟩ {} "app"
        "python run.py" (some "fe") (some "echo a | echo b")).1 =
      { success := true, message := "Server(s) started successfully",
        backendSpawned := some ("app", "python run.py"),
        frontendSpawned := some ("fe", "echo a | echo b") } ∧
    (smStart ⟨fun _ => true, fun _ => true, fun s => s⟩ {} "app"
        "python run.py" (some "fe") (some "echo a | echo b")).2.frontend_process =
      some ("fe", "echo a | echo b") := by
  decide

lemma spawnNgrok_spawnedPort (st : NMState) (config : Option ProjectConfigRec)
    (port : Nat) (apiUrl : Option String) (p : Nat)
    (hp : (spawnNgrok st config port apiUrl).1.spawnedPort = some p) :
    p = ngrokTargetPort config port := by
  cases apiUrl <;> simpa [spawnNgrok] using hp.symm

lemma spawnCloudflare_spawnedPort (st : NMState)
    (config : Option ProjectConfigRec) (port : Nat) (scannedUrl : Option String)
    (p : Nat)
    (hp : (spawnCloudflare st config port scannedUrl).1.spawnedPort = some p) :
    p = cloudflareTargetPort config port := by
  cases scannedUrl <;> simpa [spawnCloudflare] using hp.symm

lemma ngrokTargetPort_eq (config : Option ProjectConfigRec) (port : Nat) :
    ngrokTargetPort config port =
      if cfgQueueEnabled config then 1338 else port := by
  cases config <;> rfl

lemma cloudflareTargetPort_eq (config : Option ProjectConfigRec) (port : Nat) :
    cloudflareTargetPort config port =
      if cfgQueueEnabled config then 1338 else port := by
  cases config <;> rfl

/-- C8: whenever a tunnel `start(requested_port)` actually spawns an agent,
the internal port handed to the agent is the admin port 1338 exactly when
the configuration's queue-enabled flag is set, and `requested_port`
otherwise — identically for ngrok and cloudflared. -/
theorem C8_tunnel_internal_port (st : NMState)
    (config : Option ProjectConfigRec) (port : Nat) (apiUrl : Option String)
    (installed : Bool) (scannedUrl : Option String) :
    (∀ p, (startNgrok st config port apiUrl).1.spawnedPort = some p →
       p = if cfgQueueEnabled config then 1338 else port) ∧
    (∀ p, (startCloudflare st config port installed scannedUrl).1.spawnedPort =
        some p →
       p = if cfgQueueEnabled config then 1338 else port) := by
  constructor
  · intro p hp
    rw [← ngrokTargetPort_eq]
    unfold startNgrok at hp
    split at hp
    · split at hp
      · simp at hp
      · exact spawnNgrok_spawnedPort _ config port apiUrl p hp
    · exact spawnNgrok_spawnedPort _ config port apiUrl p hp
  · intro p hp
    rw [← cloudflareTargetPort_eq]
    unfold startCloudflare at hp
    split at hp
    · split at hp
      · simp at hp
      · split at hp
        · simp at hp
        · exact spawnCloudflare_spawnedPort _ config port scannedUrl p hp
    · split at hp
      · simp at hp
      · exact spawnCloudflare_spawnedPort _ config port scannedUrl p hp

/-- Witness for C8: with the queue enabled, a fresh ngrok start tunnels
1338; with the queue disabled, a fresh cloudflared start tunnels the
requested port 9000. -/
theorem C8_tunnel_internal_port_witness :
    (startNgrok {} (some { queue_enabled := some true }) 8000
        (some "https://x.ngrok.io")).1.spawnedPort = some 1338 ∧
    (1338 = if cfgQueueEnabled (some { queue_enabled := some true })
      then 1338 else 8000) ∧
    (startCloudflare {} (some { queue_enabled := some false }) 9000 true
        (some "https://a.trycloudflare.com")).1.spawnedPort = some 9000 ∧
    (9000 = if cfgQueueEnabled (some { queue_enabled := some false })
      then 1338 else 9000) := by
  refine ⟨by decide, ?_, by decide, ?_⟩
  · exact (C8_tunnel_internal_port {} (some { queue_enabled := some true })
      8000 (some "https://x.ngrok.io") true none).1 1338 (by decide)
  · exact (C8_tunnel_internal_port {} (some { queue_enabled := some false })
      9000 none true (some "https://a.trycloudflare.com")).2 9000 (by decide)

/-- C6 counterexample: at `n = 0` the endpoint clamp `min(0, 200) = 0`
leads to the Python slice `[-0:]`, which is the *whole* ring: with one
record stored, one record is returned although `min(n, 200, capacity) = 0`. -/
theorem C6_recent_clamp_counterexample :
    (apiTrafficRequests
        (logRequest {} "GET" "/a" 200 1 "c" "ua" 0 0 "t0" 0) 0).length = 1 ∧
    ¬ (((apiTrafficRequests
          (logRequest {} "GET" "/a" 200 1 "c" "ua" 0 0 "t0" 0) 0).length : Int) ≤
        min 0 (min 200 (({} : TrafficMonitor).max_history : Int))) := by
  constructor
  · rfl
  · decide

/-- C6 amended: for every `n ≥ 1`, the endpoint returns at most
`min(n, 200, ring_capacity)` records, in reverse-chronological order (the
reversed result is a suffix of the chronological ring).  For `n = 0` the
slice `[-0:]` degenerates and every record in the ring is returned, so the
claim's bound holds only from `n = 1` up. -/
theorem C6_recent_clamp_amended (tm : TrafficMonitor) (n : Int)
    (hn : 1 ≤ n) (hlen : tm.request_history.length ≤ tm.max_history) :
    ((apiTrafficRequests tm n).length : Int) ≤
      min n (min 200 (tm.max_history : Int)) ∧
    List.IsSuffix ((apiTrafficRequests tm n).reverse) tm.request_history := by
  have hneg : -(min n 200) < 0 := by omega
  constructor
  · simp only [apiTrafficRequests, getRecentRequests, pySliceFrom, if_pos hneg,
      List.length_reverse, List.length_drop]
    omega
  · simp only [apiTrafficRequests, getRecentRequests, pySliceFrom, if_pos hneg,
      List.reverse_reverse]
    exact List.drop_suffix _ _

/-- Witness for C6 amended: with one record in the ring and `n = 50`, one
record comes back, within the bound, and its reverse is a suffix of the
ring. -/
theorem C6_recent_clamp_amended_witness :
    ((apiTrafficRequests
        (logRequest {} "GET" "/a" 200 1 "c" "ua" 0 0 "t0" 0) 50).length : Int) ≤
      min 50 (min 200
        ((logRequest {} "GET" "/a" 200 1 "c" "ua" 0 0 "t0" 0).max_history : Int)) ∧
    List.IsSuffix
      ((apiTrafficRequests
        (logRequest {} "GET" "/a" 200 1 "c" "ua" 0 0 "t0" 0) 50).reverse)
      (logRequest {} "GET" "/a" 200 1 "c" "ua" 0 0 "t0" 0).request_history := by
  exact C6_recent_clamp_amended
    (logRequest {} "GET" "/a" 200 1 "c" "ua" 0 0 "t0" 0) 50
    (by decide) (by decide)

end BackendBuddy
